import Mathlib

/-!
Shallow embedding of the HealthGuard agent routing and orchestration
subsystem (backend/app/agents and backend/app/llm/base.py), written to
check the specification's claims against the code.

Conventions of the embedding:
* Python strings are modelled as Lean `String` / `List Char`.
* Python floats are modelled as rationals.
* Values produced by Python's `json.loads` are modelled by `PyVal`;
  uncaught Python exceptions are modelled with `Except PyError`.
* An async generator run is modelled by the finite list of values it
  yields, together with an optional exception raised after them.
-/

namespace HealthGuard

/-- Python `str.lower()`, as a list of characters.  `Char.toLower` lowers the
ASCII letters; the CJK characters used by the keyword lists have no case, so
this agrees with Python on the alphabets the router handles. -/
def lower (s : String) : List Char := s.data.map Char.toLower

/-- Python substring membership `kw in s`: does `kw` occur as a contiguous
substring of `s`?  (The empty string is a substring of everything.) -/
def pyIn (kw : List Char) : List Char → Bool
  | [] => kw.isEmpty
  | c :: rest => kw.isPrefixOf (c :: rest) || pyIn kw rest

/-- Number of (possibly overlapping) occurrence positions of `kw` in `s`.
Used to state the spec's "duplicate keyword hits each count" reading. -/
def occCount (kw s : List Char) : Nat :=
  (List.range (s.length + 1)).countP (fun i => kw.isPrefixOf (s.drop i))

/-! ### Values coming back from `json.loads` (router_agent.py line 100)

`PyVal` models the values Python's `json.loads` can return; `PyError`
models the uncaught exception classes the routing code can hit.  Only
`json.JSONDecodeError`, `ValueError` and `KeyError` are caught by
`RouterAgent._route_with_llm` (line 110); `TypeError` is not. -/

inductive PyVal where
  | null
  | boolVal (b : Bool)
  | num (q : ℚ)
  | str (s : String)
  | arr (xs : List PyVal)
  | obj (fields : List (String × PyVal))

inductive PyError where
  | typeError
  | valueError
  | keyError
deriving DecidableEq

/-- Python `needle in v` for a json-decoded value `v`:
dict → key membership, list → element equality, str → substring,
anything else (int/float/bool/None) → `TypeError`. -/
def pyContains (needle : String) : PyVal → Except PyError Bool
  | .obj fields => .ok (fields.any (fun kv => kv.1 == needle))
  | .arr xs => .ok (xs.any (fun v => match v with | .str s => s == needle | _ => false))
  | .str s => .ok (pyIn needle.data s.data)
  | _ => .error .typeError

/-- Python `v[key]` for a string key: dict → lookup (KeyError when absent),
list/str → `TypeError` (indices must be integers), others → `TypeError`. -/
def pySubscript (v : PyVal) (key : String) : Except PyError PyVal :=
  match v with
  | .obj fields =>
    match List.lookup key fields with
    | some x => .ok x
    | none => .error .keyError
  | _ => .error .typeError

/-- Python `d.get(key, default)`; only reached on dict values in the code. -/
def pyGet (v : PyVal) (key : String) (default : PyVal) : PyVal :=
  match v with
  | .obj fields => (List.lookup key fields).getD default
  | _ => default

/-- Python `x in {"diet", "fitness", "medical", "general"}` (a set of strings):
strings test membership, unhashable values (list/dict) raise `TypeError`,
other hashable values are simply not members. -/
def pySetMember (v : PyVal) (tags : List String) : Except PyError Bool :=
  match v with
  | .str s => .ok (tags.contains s)
  | .arr _ => .error .typeError
  | .obj _ => .error .typeError
  | _ => .ok false

/-- Digit run to a natural number. -/
def digitsToNat (cs : List Char) : Nat :=
  cs.foldl (fun n c => n * 10 + (c.toNat - 48)) 0

/-- A modest model of Python `float(s)` on strings: optional sign, then
digits with an optional fractional part (exponent/inf/nan forms are omitted;
no claim depends on the string-to-float branch).  `none` models `ValueError`. -/
def parsePyNumber (s : String) : Option ℚ :=
  let cs := s.data
  let (sign, body) : ℚ × List Char :=
    match cs with
    | '-' :: rest => (-1, rest)
    | '+' :: rest => (1, rest)
    | rest => (1, rest)
  let intPart := body.takeWhile (fun c => c ≠ '.')
  match body.dropWhile (fun c => c ≠ '.') with
  | [] =>
    if intPart.all Char.isDigit && !intPart.isEmpty then
      some (sign * digitsToNat intPart)
    else none
  | '.' :: fracPart =>
    if intPart.all Char.isDigit && fracPart.all Char.isDigit
        && !(intPart.isEmpty && fracPart.isEmpty) then
      some (sign * ((digitsToNat intPart : ℚ)
        + (digitsToNat fracPart : ℚ) / ((10 : ℚ) ^ fracPart.length)))
    else none
  | _ => none

/-- Python `float(v)` on a json-decoded value: numbers and bools coerce,
strings parse (`ValueError` on failure), None/list/dict raise `TypeError`. -/
def pyFloat : PyVal → Except PyError ℚ
  | .num q => .ok q
  | .boolVal b => .ok (if b then 1 else 0)
  | .str s =>
    match parsePyNumber s with
    | some q => .ok q
    | none => .error .valueError
  | _ => .error .typeError

/-! ### RouterAgent (backend/app/agents/router_agent.py) -/

/-- A routing decision dict `{"agent": ..., "confidence": ..., "reason": ...}`.
The keyword path always puts a string in `reason`; the LLM path copies
whatever json value the model supplied. -/
structure RoutingDecision where
  agent : String
  confidence : ℚ
  reason : PyVal

/-- Keyword list for diet (router_agent.py lines 123-126). -/
def dietKeywords : List String :=
  ["food", "eat", "meal", "breakfast", "lunch", "dinner", "snack",
   "recipe", "calorie", "gi", "glycemic", "nutrition", "diet", "hungry",
   "吃", "食物", "早餐", "午餐", "晚餐", "热量", "营养", "饮食",
   "血糖", "升糖"]

/-- Keyword list for fitness (router_agent.py lines 127-129). -/
def fitnessKeywords : List String :=
  ["walk", "run", "exercise", "workout", "gym", "steps", "activity",
   "training", "cardio", "strength", "fitness", "calories burned",
   "运动", "步数", "锻炼", "健身", "跑步", "散步"]

/-- Keyword list for medical (router_agent.py lines 130-132). -/
def medicalKeywords : List String :=
  ["blood", "test", "result", "medical", "doctor", "insulin",
   "glucose", "a1c", "medication", "prescription", "health record",
   "体检", "报告", "化验", "医疗", "医生", "胰岛素", "指标"]

/-- `sum(1 for kw in keywords if kw in user_message_lower)`
(router_agent.py lines 134-136): one point per keyword that occurs as a
substring of the lowered message. -/
def keywordScore (kws : List String) (msgLower : List Char) : Nat :=
  (kws.filter (fun kw => pyIn kw.data msgLower)).length

def dietScore (msg : String) : Nat := keywordScore dietKeywords (lower msg)

def fitnessScore (msg : String) : Nat := keywordScore fitnessKeywords (lower msg)

def medicalScore (msg : String) : Nat := keywordScore medicalKeywords (lower msg)

/-- `min(0.6 + score * 0.1, 0.95)` (router_agent.py lines 147, 153, 159). -/
def conf (score : Nat) : ℚ := min (6/10 + (score : ℚ) * (1/10)) (95/100)

/-- `RouterAgent._route_with_keywords` (router_agent.py lines 117-167). -/
def routeWithKeywords (msg : String) : RoutingDecision :=
  let d := dietScore msg
  let f := fitnessScore msg
  let m := medicalScore msg
  if d > f ∧ d > m then
    ⟨"diet", conf d, .str "Message contains diet/food-related keywords"⟩
  else if f > d ∧ f > m then
    ⟨"fitness", conf f, .str "Message contains fitness/activity-related keywords"⟩
  else if m > 0 then
    ⟨"medical", conf m, .str "Message contains medical-related keywords"⟩
  else
    ⟨"general", 8/10, .str "General conversation or greeting"⟩

/-- The valid agent set of router_agent.py line 103. -/
def validAgents : List String := ["diet", "fitness", "medical", "general"]

/-- String value of a `PyVal` known to be a string (used only on the branch
where set membership in `validAgents` succeeded, so the value is a string). -/
def pyStrVal : PyVal → String
  | .str s => s
  | _ => ""

/-- `RouterAgent._route_with_llm` (router_agent.py lines 77-115), from the
point where the LLM response text has been produced.  `parsed` is the outcome
of Python `json.loads` on the stripped response text.  The LLM call itself
never raises into this function: `BaseAgent.call_llm` (base_agent.py lines
151-157) catches every exception and returns the text
`"[LLM call failed for RouterAgent: ...]"`, whose json parse fails, so an
exception during the call is the `parsed = .error ()` case here.  The
`except` clause on line 110 catches `json.JSONDecodeError`, `ValueError`
and `KeyError` (falling back to keywords) but not `TypeError`. -/
def routeWithLLM (userMessage : String) (parsed : Except Unit PyVal) :
    Except PyError RoutingDecision :=
  match parsed with
  | .error _ => .ok (routeWithKeywords userMessage)
  | .ok result =>
    match pyContains "agent" result with
    | .error e => .error e
    | .ok false => .ok (routeWithKeywords userMessage)
    | .ok true =>
      match pySubscript result "agent" with
      | .error e => .error e
      | .ok agentVal =>
        match pySetMember agentVal validAgents with
        | .error e => .error e
        | .ok false => .ok (routeWithKeywords userMessage)
        | .ok true =>
          match pyFloat (pyGet result "confidence" (.num (8/10))) with
          | .ok c => .ok ⟨pyStrVal agentVal, c, pyGet result "reason" (.str "LLM routing")⟩
          | .error .valueError => .ok (routeWithKeywords userMessage)
          | .error e => .error e

/-! ### FitnessAgent fallback (backend/app/agents/fitness_agent.py) -/

/-- The analysis dict built by `FitnessAgent._analyze_activity`
(fitness_agent.py lines 135-157); the three numbers are the values read
from `health_data` with `.get(..., 0)` defaults. -/
structure ActivityAnalysis where
  steps : Int
  stepsStatus : String
  activeEnergy : Int
  energyStatus : String
  exerciseMinutes : Int
  overallAssessment : String

def analyzeActivity (steps activeEnergy exerciseMinutes : Int) : ActivityAnalysis :=
  { steps := steps
    stepsStatus := if steps ≥ 10000 then "优秀" else if steps ≥ 8000 then "良好" else "需改进"
    activeEnergy := activeEnergy
    energyStatus := if activeEnergy ≥ 500 then "优秀" else if activeEnergy ≥ 400 then "良好" else "需改进"
    exerciseMinutes := exerciseMinutes
    overallAssessment := if steps ≥ 8000 then "继续保持" else "加油努力" }

/-- `FitnessAgent._generate_exercise_plan` (fitness_agent.py lines 159-179). -/
def generateExercisePlan (analysis : ActivityAnalysis) : List String :=
  (if analysis.steps < 8000 then ["尝试增加步数：饭后散步15-20分钟对降低血糖特别有效"] else []) ++
  (if analysis.exerciseMinutes < 30 then ["每天至少30分钟中等强度运动（快走、游泳、骑车）"] else []) ++
  ["结合力量训练：每周2-3次，增强胰岛素敏感性",
   "保持规律：运动的一致性比强度更重要",
   "监控心率：保持在50-70%最大心率范围内"]

/-- The `enumerate(recommendations, 1)` loop of fitness_agent.py lines 198-199. -/
def recLines (recs : List String) : String :=
  String.join (recs.enum.map (fun p => toString (p.1 + 1) ++ ". " ++ p.2 ++ "\n"))

/-- `FitnessAgent._format_response` (fitness_agent.py lines 181-204). -/
def formatResponse (analysis : ActivityAnalysis) (recommendations : List String) : String :=
  "## 运动分析\n\n" ++
  "**步数**: " ++ toString analysis.steps ++ " 步 (" ++ analysis.stepsStatus ++ ")\n" ++
  "**活动能量**: " ++ toString analysis.activeEnergy ++ " 千卡 (" ++ analysis.energyStatus ++ ")\n" ++
  "**运动时长**: " ++ toString analysis.exerciseMinutes ++ " 分钟\n\n" ++
  "**总体评估**: " ++ analysis.overallAssessment ++ "\n\n" ++
  "## 运动建议\n\n" ++
  recLines recommendations ++
  "\n🏃 运动是改善胰岛素抵抗的最佳天然药物！每一步都很重要！\n" ++
  "\n_提示：配置 LLM API 后可获得更个性化的运动分析和建议。_"

/-- The template response text of `FitnessAgent.process_request` when no LLM
provider is configured (fitness_agent.py lines 60-71). -/
def fitnessFallbackResponse (steps activeEnergy exerciseMinutes : Int) : String :=
  formatResponse (analyzeActivity steps activeEnergy exerciseMinutes)
    (generateExercisePlan (analyzeActivity steps activeEnergy exerciseMinutes))

/-! ### Streaming (backend/app/agents/orchestrator.py, base_agent.py) -/

/-- Observable behavior of one run of an async token stream: the tokens it
yields in order, then optionally the message of an exception raised after
them (`none` = the stream finished normally). -/
structure StreamRun where
  frags : List String
  err : Option String

/-- Observable behavior of `provider.chat_completion_stream`: the tokens the
provider yields before either finishing or raising. -/
structure ProviderStream where
  frags : List String
  err : Option String

/-- `BaseAgent.call_llm_stream` (base_agent.py lines 159-236) for a
streaming-capable provider (or none).  Its `except` clause catches every
exception from the provider and yields
`"[LLM stream failed for <name>: <e>]"` as one more token, so the returned
run never raises. -/
def callLLMStream (name : String) (provider : Option ProviderStream) : StreamRun :=
  match provider with
  | none =>
    ⟨["[LLM not configured for " ++ name ++ ". " ++
      "Set LLM_API_KEY and LLM_PROVIDER in environment to enable AI responses.]"], none⟩
  | some p =>
    match p.err with
    | none => ⟨p.frags, none⟩
    | some e => ⟨p.frags ++ ["[LLM stream failed for " ++ name ++ ": " ++ e ++ "]"], none⟩

/-- `FitnessAgent.process_request_stream` (fitness_agent.py lines 98-133):
with a provider it forwards `call_llm_stream` token-for-token; with none it
yields the single template response built from the `health_data` numbers. -/
def fitnessProcessRequestStream (provider : Option ProviderStream)
    (steps activeEnergy exerciseMinutes : Int) : StreamRun :=
  match provider with
  | none => ⟨[fitnessFallbackResponse steps activeEnergy exerciseMinutes], none⟩
  | some p => callLLMStream "FitnessAgent" (some p)

/-- One event yielded by `AgentOrchestrator.process_message_stream`. -/
inductive Event where
  | routing (agent : String) (confidence : Option ℚ) (reason : PyVal)
  | content (text : String)
  | done
  | error (msg : String)

def isDoneEvt : Event → Bool
  | .done => true
  | _ => false

def isErrorEvt : Event → Bool
  | .error _ => true
  | _ => false

/-- The dispatch chain of orchestrator.py lines 167-173: diet, fitness and
medical pick a specialist; any other tag goes to the general branch. -/
def isSpecialistTag (agent : String) : Bool :=
  agent == "diet" || agent == "fitness" || agent == "medical"

/-- `AgentOrchestrator.process_message_stream` (orchestrator.py lines
117-224) as a function from the outcomes of its awaited collaborators to the
list of events it yields:
* `memory` — `memory_manager.get_user_context` (may raise),
* `routerRes` — `router.process_request` (may raise, e.g. the uncaught
  `TypeError` of `_route_with_llm`),
* `generalRes` — `_handle_general` (general branch only),
* `specialistRun` — the selected specialist's `process_request_stream` run.
Each yield of the Python generator appends one event; the outer `except`
turns an exception from the blocking steps into a single error event, the
inner try/except blocks around the general response and the specialist
loop are translated branch by branch. -/
def processMessageStream (memory : Except String Unit)
    (routerRes : Except String RoutingDecision)
    (generalRes : Except String String)
    (specialistRun : StreamRun) : List Event :=
  match memory with
  | .error e => [.error e]
  | .ok _ =>
    match routerRes with
    | .error e => [.error e]
    | .ok routing =>
      let head := Event.routing routing.agent (some routing.confidence) routing.reason
      if isSpecialistTag routing.agent then
        match specialistRun.err with
        | some e => head :: specialistRun.frags.map Event.content ++ [.error e]
        | none => head :: specialistRun.frags.map Event.content ++ [.done]
      else
        match generalRes with
        | .ok text => [head, .content text, .done]
        | .error e => [head, .error e]

/-- `content* (done | error)`: zero or more content events followed by
exactly one terminal event, with nothing after it. -/
def tailShapeOk : List Event → Bool
  | [.done] => true
  | [.error _] => true
  | .content _ :: rest => tailShapeOk rest
  | _ => false

/-- The strict stream state machine of the spec:
an optional leading routing event, then `content* (done | error)`. -/
def wfStream : List Event → Bool
  | .routing _ _ _ :: rest => tailShapeOk rest
  | es => tailShapeOk es

/-! ### Non-streaming orchestration (orchestrator.py lines 47-115) -/

/-- A Python dict in insertion order. -/
abbrev PyDict := List (String × PyVal)

/-- Python `d[key] = v`: replace in place when the key exists, else append. -/
def dictSet (d : PyDict) (key : String) (v : PyVal) : PyDict :=
  if d.any (fun kv => kv.1 == key) then
    d.map (fun kv => if kv.1 == key then (kv.1, v) else kv)
  else d ++ [(key, v)]

/-- The routing dict attached under `"routing"` (orchestrator.py line 100). -/
def decisionToPyVal (d : RoutingDecision) : PyVal :=
  .obj [("agent", .str d.agent), ("confidence", .num d.confidence), ("reason", d.reason)]

/-- The `if/elif/elif/else` dispatch of orchestrator.py lines 90-97; each
argument is the outcome of the corresponding handler (a raising handler
propagates through the outer `try`, which re-raises). -/
def selectSpecialistResp (agent : String)
    (dietResp fitnessResp medicalResp generalResp : Except String PyDict) :
    Except String PyDict :=
  if agent == "diet" then dietResp
  else if agent == "fitness" then fitnessResp
  else if agent == "medical" then medicalResp
  else generalResp

/-- `AgentOrchestrator.process_message` (orchestrator.py lines 47-115) as a
function from the outcomes of its awaited collaborators: fetch context,
classify, dispatch, then `response["routing"] = routing`.  Exceptions
propagate (the outer `except` logs and re-raises). -/
def processMessage (memory : Except String Unit)
    (routerRes : Except String RoutingDecision)
    (dietResp fitnessResp medicalResp generalResp : Except String PyDict) :
    Except String PyDict :=
  match memory with
  | .error e => .error e
  | .ok _ =>
    match routerRes with
    | .error e => .error e
    | .ok routing =>
      match selectSpecialistResp routing.agent dietResp fitnessResp medicalResp generalResp with
      | .error e => .error e
      | .ok resp => .ok (dictSet resp "routing" (decisionToPyVal routing))

/-! ### LLMMessage.multimodal (backend/app/llm/base.py lines 25-58) -/

/-- One content block of a multimodal message.  The code emits image blocks
as `{"type": "image_url", "image_url": {"url": ...}}` and text blocks as
`{"type": "text", "text": ...}`. -/
inductive ContentBlock where
  | imageUrl (url : String)
  | textBlock (text : String)

def isImageBlock : ContentBlock → Bool
  | .imageUrl _ => true
  | .textBlock _ => false

/-- A base64 image entry `{"data": ..., "media_type": ...}`. -/
structure ImageB64 where
  data : String
  mediaType : String

/-- Message content: a plain string or a list of blocks. -/
inductive MessageContent where
  | plain (s : String)
  | blocks (parts : List ContentBlock)

structure LLMMessage where
  role : String
  content : MessageContent

/-- `LLMMessage.multimodal` (llm/base.py lines 25-58): url image blocks,
then base64 image blocks, then exactly one text block.  `none` and
`some []` behave identically because Python treats both `None` and `[]`
as falsy in `if image_urls:` / `if image_base64_list:`. -/
def LLMMessage.multimodal (role text : String) (imageUrls : Option (List String))
    (imageBase64List : Option (List ImageB64)) : LLMMessage :=
  let urlBlocks := match imageUrls with
    | some urls => urls.map ContentBlock.imageUrl
    | none => []
  let b64Blocks := match imageBase64List with
    | some imgs => imgs.map (fun img =>
        ContentBlock.imageUrl ("data:" ++ img.mediaType ++ ";base64," ++ img.data))
    | none => []
  ⟨role, .blocks (urlBlocks ++ b64Blocks ++ [.textBlock text])⟩

/-- The content block list of a message (empty for plain text content). -/
def contentBlocks (m : LLMMessage) : List ContentBlock :=
  match m.content with
  | .plain _ => []
  | .blocks parts => parts

/-! ## Helper lemmas -/

/-- Case form of the keyword router: the four branches of
router_agent.py lines 144-167. -/
theorem routeWithKeywords_cases (msg : String) :
    routeWithKeywords msg =
      if dietScore msg > fitnessScore msg ∧ dietScore msg > medicalScore msg then
        ⟨"diet", conf (dietScore msg), .str "Message contains diet/food-related keywords"⟩
      else if fitnessScore msg > dietScore msg ∧ fitnessScore msg > medicalScore msg then
        ⟨"fitness", conf (fitnessScore msg), .str "Message contains fitness/activity-related keywords"⟩
      else if medicalScore msg > 0 then
        ⟨"medical", conf (medicalScore msg), .str "Message contains medical-related keywords"⟩
      else ⟨"general", 8/10, .str "General conversation or greeting"⟩ := rfl

/-- Splitting one occurrence-count step off the head of the searched text. -/
theorem occCount_cons (kw : List Char) (c : Char) (s : List Char) :
    occCount kw (c :: s) = occCount kw s + (if kw.isPrefixOf (c :: s) then 1 else 0) := by
  unfold occCount
  show (List.range (s.length + 1 + 1)).countP _ = _
  rw [List.range_succ_eq_map, List.countP_cons, List.countP_map]
  rfl

/-- Python substring membership agrees with positivity of the occurrence
count. -/
theorem pyIn_eq_posOcc (kw s : List Char) :
    pyIn kw s = decide (0 < occCount kw s) := by
  induction s with
  | nil =>
    cases kw with
    | nil => rfl
    | cons c cs => rfl
  | cons c rest ih =>
    show (kw.isPrefixOf (c :: rest) || pyIn kw rest) = _
    rw [ih, occCount_cons]
    cases hp : kw.isPrefixOf (c :: rest) <;> simp [hp]

/-! ## C4 -/

/-- C4 (confirmed): the keyword classifier picks diet when the diet score
strictly exceeds both the fitness and medical scores, otherwise fitness
when the fitness score strictly exceeds both others, otherwise medical when
its score is positive, otherwise general. -/
theorem keyword_selection_policy (msg : String) :
    (routeWithKeywords msg).agent =
      if dietScore msg > fitnessScore msg ∧ dietScore msg > medicalScore msg then "diet"
      else if fitnessScore msg > dietScore msg ∧ fitnessScore msg > medicalScore msg then "fitness"
      else if medicalScore msg > 0 then "medical"
      else "general" := by
  rw [routeWithKeywords_cases]
  split_ifs <;> rfl

/-! ## C5 -/

/-- C5 counterexample: the message "food meal walk run" has exactly two diet
hits and two fitness hits (and no medical hit), yet the keyword classifier
routes it to general, not to diet — a 2-2 tie never satisfies the strict
comparison that guards the diet branch. -/
theorem tie_two_two_routes_general :
    dietScore "food meal walk run" = 2 ∧ fitnessScore "food meal walk run" = 2 ∧
    medicalScore "food meal walk run" = 0 ∧
    (routeWithKeywords "food meal walk run").agent = "general" := by decide

/-- C5 (corrected): a message whose diet and fitness scores are both exactly
2 never routes to diet; it routes to medical when its medical score is
positive and to general otherwise, because the diet branch requires the diet
score to strictly exceed the fitness score. -/
theorem tie_two_two_never_diet (msg : String)
    (h1 : dietScore msg = 2) (h2 : fitnessScore msg = 2) :
    (routeWithKeywords msg).agent ≠ "diet" ∧
    (routeWithKeywords msg).agent =
      (if medicalScore msg > 0 then "medical" else "general") := by
  rw [routeWithKeywords_cases, h1, h2]
  simp only [gt_iff_lt, lt_irrefl, false_and, if_false]
  split_ifs with hm
  · exact ⟨fun h => (by decide : ("medical" : String) = "diet" → False) h, rfl⟩
  · exact ⟨fun h => (by decide : ("general" : String) = "diet" → False) h, rfl⟩

/-- Witness for C5's amended theorem at the concrete tied message. -/
theorem tie_two_two_never_diet_witness :
    (routeWithKeywords "food meal walk run").agent ≠ "diet" :=
  (tie_two_two_never_diet "food meal walk run" (by decide) (by decide)).1

/-! ## C6 -/

/-- Score following the spec's words, for comparison with the code's score:
"counting case-insensitive substring occurrences of its keywords in the
lower-cased message (duplicate keyword hits each count)". -/
def specKeywordScore (kws : List String) (msgLower : List Char) : Nat :=
  (kws.map (fun kw => occCount kw.data msgLower)).sum

/-- C6 counterexample: the message "food food food" contains the diet
keyword "food" three times (the spec-side occurrence score is 3), but the
code's diet score is 1 — duplicate hits of the same keyword do not each
count. -/
theorem duplicate_hits_count_once :
    occCount "food".data (lower "food food food") = 3 ∧
    specKeywordScore dietKeywords (lower "food food food") = 3 ∧
    dietScore "food food food" = 1 := by decide

/-- C6 (corrected): the keyword classifier scores a category by counting the
keywords that occur at least once as a case-insensitive substring of the
lower-cased message; a keyword occurring k ≥ 1 times contributes exactly 1,
not k. -/
theorem keyword_score_ignores_multiplicity (kws : List String) (msgLower : List Char) :
    keywordScore kws msgLower
      = kws.countP (fun kw => decide (0 < occCount kw.data msgLower)) := by
  unfold keywordScore
  rw [← List.countP_eq_length_filter]
  simp only [pyIn_eq_posOcc]

/-! ## C7 -/

/-- Monotonicity of the confidence formula in the winning score. -/
theorem conf_mono {s t : Nat} (h : s ≤ t) : conf s ≤ conf t := by
  unfold conf
  apply min_le_min _ le_rfl
  have hq : (s : ℚ) ≤ t := by exact_mod_cast h
  have := mul_le_mul_of_nonneg_right hq (by norm_num : (0:ℚ) ≤ 1/10)
  linarith

/-- Below the 0.95 cap the confidence strictly increases with the score. -/
theorem conf_strict {s : Nat} (h : conf s < 95/100) : conf s < conf (s + 1) := by
  have hs : conf s = 6/10 + (s : ℚ) * (1/10) := by
    rcases min_cases (6/10 + (s : ℚ) * (1/10)) (95/100) with ⟨h1, _⟩ | ⟨h1, h2⟩
    · exact h1
    · exact absurd (h1 ▸ h) (lt_irrefl _)
  have hlt : 6/10 + (s : ℚ) * (1/10) < 95/100 := hs ▸ h
  rw [hs]
  apply lt_min
  · push_cast
    linarith
  · exact hlt

/-- C7 (confirmed): for messages the keyword classifier routes to
diet/fitness/medical the returned confidence equals
min(0.6 + 0.1 × winning score, 0.95); this is monotone non-decreasing in
the winning score, strictly increasing below the 0.95 cap, and never
exceeds 0.95; messages routed to general carry confidence exactly 0.8. -/
theorem keyword_confidence_spec (msg : String) (s t : Nat) :
    conf s = min (6/10 + (s : ℚ) * (1/10)) (95/100)
  ∧ ((routeWithKeywords msg).agent = "diet" →
      (routeWithKeywords msg).confidence = conf (dietScore msg))
  ∧ ((routeWithKeywords msg).agent = "fitness" →
      (routeWithKeywords msg).confidence = conf (fitnessScore msg))
  ∧ ((routeWithKeywords msg).agent = "medical" →
      (routeWithKeywords msg).confidence = conf (medicalScore msg))
  ∧ ((routeWithKeywords msg).agent = "general" →
      (routeWithKeywords msg).confidence = 8/10)
  ∧ (s ≤ t → conf s ≤ conf t)
  ∧ (conf s < 95/100 → conf s < conf (s + 1))
  ∧ conf s ≤ 95/100 := by
  refine ⟨rfl, ?_, ?_, ?_, ?_, fun h => conf_mono h, fun h => conf_strict h, min_le_right _ _⟩
  all_goals
    rw [routeWithKeywords_cases]
    split_ifs <;> intro h <;> first | rfl | simp at h

/-- Witness for C7 at the message "food" (diet score 1) and scores 1 ≤ 2. -/
theorem keyword_confidence_spec_witness :
    (routeWithKeywords "food").confidence = conf 1
  ∧ conf 1 ≤ conf 2 ∧ conf 1 < conf 2 ∧ conf 1 ≤ 95/100 := by
  obtain ⟨-, hdiet, -, -, -, hmono, hstrict, hcap⟩ := keyword_confidence_spec "food" 1 2
  have h1 : (routeWithKeywords "food").agent = "diet" := by decide
  have hd : dietScore "food" = 1 := by decide
  have hc := hdiet h1
  rw [hd] at hc
  have hlt : conf 1 < 95/100 := by norm_num [conf]
  exact ⟨hc, hmono (by decide), hstrict hlt, hcap⟩

/-! ## C2 -/

/-- C2 counterexample: when the model backend returns the syntactically
valid JSON text "5", `json.loads` yields the number 5 and `"agent" in
result` raises a TypeError, which `_route_with_llm` does not catch — it
propagates to the caller, so `classify` is not exception-free for every
backend response. -/
theorem classify_raises_on_json_number :
    routeWithLLM "hello" (.ok (.num 5)) = .error PyError.typeError := rfl

/-- C2 (corrected): for the failure modes the spec lists — syntactically
invalid JSON (which also covers an exception raised during the model call,
since `call_llm` catches it and returns a non-JSON error string), and a
JSON object whose "agent" key is missing or not a valid agent tag — the
classifier falls back to exactly the keyword decision and no exception
propagates.  (But the fallback is not total: a backend response that is
valid JSON of a non-container type, or an object with a valid agent and a
null/list/dict confidence, raises an uncaught TypeError; see the
counterexample.) -/
theorem classify_fallback_cases (msg : String) (fields : List (String × PyVal)) :
    (routeWithLLM msg (.error ()) = .ok (routeWithKeywords msg))
  ∧ (fields.any (fun kv => kv.1 == "agent") = false →
      routeWithLLM msg (.ok (.obj fields)) = .ok (routeWithKeywords msg))
  ∧ (∀ v, List.lookup "agent" fields = some v →
      pySetMember v validAgents = .ok false →
      routeWithLLM msg (.ok (.obj fields)) = .ok (routeWithKeywords msg)) := by
  refine ⟨rfl, ?_, ?_⟩
  · intro h
    simp [routeWithLLM, pyContains, h]
  · intro v hv hset
    cases hmem : fields.any (fun kv => kv.1 == "agent") with
    | false => simp [routeWithLLM, pyContains, hmem]
    | true => simp [routeWithLLM, pyContains, hmem, pySubscript, hv, hset]

/-- Witness for C2's amended theorem: an object with the invalid agent tag
"pilot" falls back to the keyword decision. -/
theorem classify_fallback_cases_witness :
    routeWithLLM "hello" (.ok (.obj [("agent", PyVal.str "pilot")]))
      = .ok (routeWithKeywords "hello") := by
  have h := classify_fallback_cases "hello" [("agent", PyVal.str "pilot")]
  exact h.2.2 (PyVal.str "pilot") rfl rfl

/-! ## C1 -/

/-- Content events followed by a final done event form a valid tail. -/
theorem tailShapeOk_contents_done (l : List String) :
    tailShapeOk (l.map Event.content ++ [Event.done]) = true := by
  induction l with
  | nil => rfl
  | cons c rest ih => exact ih

/-- Content events followed by a final error event form a valid tail. -/
theorem tailShapeOk_contents_error (l : List String) (e : String) :
    tailShapeOk (l.map Event.content ++ [Event.error e]) = true := by
  induction l with
  | nil => rfl
  | cons c rest ih => exact ih

/-- C1 (confirmed): every streaming run of the orchestrator emits at most
one routing event — first, when present — then zero or more content events,
then exactly one terminal event (done or error), and nothing after the
terminal event. -/
theorem stream_event_state_machine (memory : Except String Unit)
    (routerRes : Except String RoutingDecision)
    (generalRes : Except String String) (run : StreamRun) :
    wfStream (processMessageStream memory routerRes generalRes run) = true := by
  cases memory with
  | error e => rfl
  | ok u =>
    cases routerRes with
    | error e => rfl
    | ok routing =>
      cases hsp : isSpecialistTag routing.agent with
      | true =>
        cases run with
        | mk frags err =>
          cases err with
          | some e =>
            simp only [processMessageStream, hsp]
            exact tailShapeOk_contents_error frags e
          | none =>
            simp only [processMessageStream, hsp]
            exact tailShapeOk_contents_done frags
      | false =>
        cases generalRes with
        | ok text => simp only [processMessageStream, hsp]; rfl
        | error e => simp only [processMessageStream, hsp]; rfl

/-! ## C3 -/

/-- Content events contain no error event. -/
theorem countP_isErrorEvt_contents (l : List String) :
    (l.map Event.content).countP isErrorEvt = 0 := by
  induction l with
  | nil => rfl
  | cons c rest ih => simp [List.countP_cons, ih, isErrorEvt]

/-- Content events contain no done event. -/
theorem any_isDoneEvt_contents (l : List String) :
    (l.map Event.content).any isDoneEvt = false := by
  induction l with
  | nil => rfl
  | cons c rest ih => simp [ih, isDoneEvt]

/-- C3 (corrected): when an exception is raised while the selected
specialist's fragment sequence is being consumed, the orchestrator emits
the routing event, one content event per fragment already yielded, then a
single error event carrying the exception message, and terminates without
a done event.  (A model-call error during streaming, however, never
reaches this path: `call_llm_stream` catches it and yields the failure as
content text — see the counterexample.) -/
theorem stream_error_event_terminates (routing : RoutingDecision)
    (generalRes : Except String String) (frags : List String) (e : String)
    (hsp : isSpecialistTag routing.agent = true) :
    processMessageStream (.ok ()) (.ok routing) generalRes ⟨frags, some e⟩
      = Event.routing routing.agent (some routing.confidence) routing.reason
          :: frags.map Event.content ++ [Event.error e]
  ∧ (processMessageStream (.ok ()) (.ok routing) generalRes
        ⟨frags, some e⟩).countP isErrorEvt = 1
  ∧ (processMessageStream (.ok ()) (.ok routing) generalRes
        ⟨frags, some e⟩).any isDoneEvt = false := by
  have hrun : processMessageStream (.ok ()) (.ok routing) generalRes ⟨frags, some e⟩
      = Event.routing routing.agent (some routing.confidence) routing.reason
          :: frags.map Event.content ++ [Event.error e] := by
    simp [processMessageStream, hsp]
  refine ⟨hrun, ?_, ?_⟩
  · rw [hrun]
    simp [List.countP_cons, List.countP_append, countP_isErrorEvt_contents, isErrorEvt]
  · rw [hrun]
    simp [List.any_append, any_isDoneEvt_contents, isDoneEvt]

/-- Witness for C3's amended theorem at a concrete failing fitness stream. -/
theorem stream_error_event_terminates_witness :
    processMessageStream (.ok ()) (.ok ⟨"fitness", 8/10, PyVal.str "r"⟩)
        (.ok "g") ⟨["a"], some "boom"⟩
      = [Event.routing "fitness" (some (8/10)) (PyVal.str "r"),
         Event.content "a", Event.error "boom"] :=
  (stream_error_event_terminates ⟨"fitness", 8/10, PyVal.str "r"⟩
    (.ok "g") ["a"] "boom" rfl).1

/-- C3 counterexample: a model-call error during streaming — the provider
raises "boom" after yielding the token "t1" — is caught inside
`BaseAgent.call_llm_stream`, which yields the failure text as one more
token; the orchestrator therefore surfaces it as a content event and then
emits done: no error event is emitted, contradicting the claim that such a
failure is surfaced as an error Stream Event rather than as content text. -/
theorem llm_stream_failure_surfaces_as_content :
    processMessageStream (.ok ()) (.ok ⟨"fitness", 8/10, PyVal.str "r"⟩) (.ok "g")
        (fitnessProcessRequestStream (some ⟨["t1"], some "boom"⟩) 0 0 0)
      = [Event.routing "fitness" (some (8/10)) (PyVal.str "r"),
         Event.content "t1",
         Event.content "[LLM stream failed for FitnessAgent: boom]",
         Event.done]
  ∧ (processMessageStream (.ok ()) (.ok ⟨"fitness", 8/10, PyVal.str "r"⟩) (.ok "g")
        (fitnessProcessRequestStream (some ⟨["t1"], some "boom"⟩) 0 0 0)).countP
        isErrorEvt = 0
  ∧ (processMessageStream (.ok ()) (.ok ⟨"fitness", 8/10, PyVal.str "r"⟩) (.ok "g")
        (fitnessProcessRequestStream (some ⟨["t1"], some "boom"⟩) 0 0 0)).any
        isDoneEvt = true :=
  ⟨rfl, rfl, rfl⟩

/-! ## C8 -/

/-- C8 (confirmed): with no model backend the fitness fallback classifies
steps as excellent at ≥ 10000, good on [8000, 10000), needs-improvement
below 8000, and active energy as excellent at ≥ 500, good on [400, 500),
needs-improvement below 400; at health data {steps: 12000, active_energy:
550, exercise_minutes: 45} the template response text contains the
excellent marker "优秀" for both the steps and the energy category. -/
theorem fitness_fallback_thresholds :
    (∀ steps energy minutes : Int,
        (10000 ≤ steps → (analyzeActivity steps energy minutes).stepsStatus = "优秀")
      ∧ (8000 ≤ steps → steps < 10000 →
          (analyzeActivity steps energy minutes).stepsStatus = "良好")
      ∧ (steps < 8000 → (analyzeActivity steps energy minutes).stepsStatus = "需改进")
      ∧ (500 ≤ energy → (analyzeActivity steps energy minutes).energyStatus = "优秀")
      ∧ (400 ≤ energy → energy < 500 →
          (analyzeActivity steps energy minutes).energyStatus = "良好")
      ∧ (energy < 400 → (analyzeActivity steps energy minutes).energyStatus = "需改进"))
  ∧ pyIn "**步数**: 12000 步 (优秀)".data (fitnessFallbackResponse 12000 550 45).data = true
  ∧ pyIn "**活动能量**: 550 千卡 (优秀)".data (fitnessFallbackResponse 12000 550 45).data
      = true := by
  refine ⟨?_, by decide, by decide⟩
  intro steps energy minutes
  refine ⟨fun h => ?_, fun h h2 => ?_, fun h => ?_, fun h => ?_, fun h h2 => ?_, fun h => ?_⟩
  all_goals
    simp only [analyzeActivity]
    split_ifs <;> first | rfl | omega

/-- Witness for C8 at the concrete health data of the claim. -/
theorem fitness_fallback_thresholds_witness :
    (analyzeActivity 12000 550 45).stepsStatus = "优秀" ∧
    (analyzeActivity 12000 550 45).energyStatus = "优秀" :=
  ⟨(fitness_fallback_thresholds.1 12000 550 45).1 (by decide),
   (fitness_fallback_thresholds.1 12000 550 45).2.2.2.1 (by decide)⟩

/-! ## C9 -/

/-- C9 (confirmed): a multimodal message has exactly n + 1 content blocks
for n images (url images then base64 images), every block before the last
is an image block, and the single text block is last — for every role and
text, including the empty text. -/
theorem multimodal_message_shape (role text : String) (urls : List String)
    (imgs : List ImageB64) :
    (contentBlocks (LLMMessage.multimodal role text (some urls) (some imgs))).length
        = urls.length + imgs.length + 1
  ∧ (contentBlocks (LLMMessage.multimodal role text (some urls) (some imgs))).getLast?
        = some (ContentBlock.textBlock text)
  ∧ (contentBlocks (LLMMessage.multimodal role text (some urls) (some imgs))).dropLast.all
        isImageBlock = true := by
  have hcb : contentBlocks (LLMMessage.multimodal role text (some urls) (some imgs))
      = (urls.map ContentBlock.imageUrl
          ++ imgs.map (fun img =>
              ContentBlock.imageUrl ("data:" ++ img.mediaType ++ ";base64," ++ img.data)))
          ++ [ContentBlock.textBlock text] := rfl
  refine ⟨?_, ?_, ?_⟩
  · rw [hcb]
    simp only [List.length_append, List.length_map, List.length_singleton]
  · rw [hcb, List.getLast?_concat]
  · rw [hcb, List.dropLast_concat]
    simp [List.all_append, List.all_map, Function.comp, isImageBlock]

/-! ## C10 -/

/-- Appending a fresh key at the end of a dict changes no other lookup. -/
theorem lookup_append_singleton (d : PyDict) (key k : String) (v : PyVal)
    (hk : k ≠ key) : List.lookup k (d ++ [(key, v)]) = List.lookup k d := by
  induction d with
  | nil =>
    have hke : (k == key) = false := beq_eq_false_iff_ne.mpr hk
    simp [List.lookup, hke]
  | cons p rest ih =>
    obtain ⟨a, b⟩ := p
    simp only [List.cons_append, List.lookup]
    cases hpk : (k == a) <;> simp [hpk, ih]

/-- C10 (confirmed): a non-streaming request that completes without raising
returns exactly the selected handler's dict with the single key "routing"
appended, holding the classifier's decision; every other key-value pair of
the handler's response is unchanged. -/
theorem process_message_adds_routing (routing : RoutingDecision)
    (dietResp fitnessResp medicalResp generalResp : Except String PyDict)
    (resp : PyDict)
    (hsel : selectSpecialistResp routing.agent dietResp fitnessResp medicalResp generalResp
        = .ok resp)
    (hkey : resp.any (fun kv => kv.1 == "routing") = false) :
    processMessage (.ok ()) (.ok routing) dietResp fitnessResp medicalResp generalResp
        = .ok (resp ++ [("routing", decisionToPyVal routing)])
  ∧ ∀ k, k ≠ "routing" →
      List.lookup k (resp ++ [("routing", decisionToPyVal routing)])
        = List.lookup k resp := by
  constructor
  · simp [processMessage, hsel, dictSet, hkey]
  · intro k hk
    exact lookup_append_singleton resp "routing" k (decisionToPyVal routing) hk

/-- Witness for C10 at a concrete fitness response dict. -/
theorem process_message_adds_routing_witness :
    processMessage (.ok ()) (.ok ⟨"fitness", 8/10, PyVal.str "r"⟩)
        (.ok []) (.ok [("agent", PyVal.str "fitness"), ("response", PyVal.str "ok")])
        (.ok []) (.ok [])
      = .ok [("agent", PyVal.str "fitness"), ("response", PyVal.str "ok"),
             ("routing", decisionToPyVal ⟨"fitness", 8/10, PyVal.str "r"⟩)] :=
  (process_message_adds_routing ⟨"fitness", 8/10, PyVal.str "r"⟩
    (.ok []) (.ok [("agent", PyVal.str "fitness"), ("response", PyVal.str "ok")])
    (.ok []) (.ok []) [("agent", PyVal.str "fitness"), ("response", PyVal.str "ok")]
    rfl rfl).1

end HealthGuard
